import Mathlib

/-!
Verification of the dependency-classification engine of `vite-plugin-ops`
(`src/index.ts`): path normalizer, pattern compiler, matcher builder and
resolver, shallowly embedded over `List Char` / `String`.
-/

namespace VPO

/-! ## Path normalizer (`normalizeId`) -/

/-- `id.replace(/\\/g, '/')`: every backslash becomes a forward slash. -/
def replaceBackslashes (l : List Char) : List Char :=
  l.map (fun c => if c == '\\' then '/' else c)

/-- `.replace(/%5C/g, '/')`: left-to-right, non-overlapping replacement of
the literal three-character sequence `%5C` by `/` (case-sensitive). -/
def replacePct5C : List Char → List Char
  | '%' :: '5' :: 'C' :: rest => '/' :: replacePct5C rest
  | c :: rest => c :: replacePct5C rest
  | [] => []

/-- `normalizeId` from the source: backslashes to slashes, then `%5C` to slash. -/
def normalizeId (id : String) : String :=
  String.mk (replacePct5C (replaceBackslashes id.data))

/-! ## JS string primitives used by the source -/

/-- Char-list version of "starts with" (case-sensitive). -/
def listStartsWith : List Char → List Char → Bool
  | [], _ => true
  | _ :: _, [] => false
  | p :: ps, c :: cs => p == c && listStartsWith ps cs

/-- `s.startsWith(pre)` on strings. -/
def strStartsWith (s pre : String) : Bool :=
  listStartsWith pre.data s.data

/-- Case-sensitive substring containment: `haystack.includes(needle)` and the
resolver gate `/\/node_modules\//.test(s)`. -/
def containsStr (pat : List Char) : List Char → Bool
  | [] => listStartsWith pat []
  | c :: cs => listStartsWith pat (c :: cs) || containsStr pat cs

/-- `s.replace(/c/g, '')` for a single character `c`: drop every occurrence. -/
def removeAllChar (c : Char) (s : String) : String :=
  String.mk (s.data.filter (fun x => !(x == c)))

/-! ## Pattern compiler (`makeNodeModulesPattern`)

For a literal package name `pkg` the source compiles the case-insensitive
regex `/node_modules/(?:[.]pnpm/)?(?:BASE)(?:/|@|$)` where `BASE` is the
regex-escaped literal, prefixed by the optional scope expression
`(?:@[^/]+/)?` when the literal itself is unscoped, and calls `.test`
(unanchored search).  Since every special character of the literal is
escaped, `BASE` matches the literal text itself; the embedding below matches
this structure directly on char lists. -/

/-- Case-insensitive literal match of `pat` as a prefix; returns the rest. -/
def stripCI : List Char → List Char → Option (List Char)
  | [], s => some s
  | _ :: _, [] => none
  | p :: ps, c :: cs => if p.toLower == c.toLower then stripCI ps cs else none

/-- The trailing boundary `(?:/|@|$)`. -/
def boundaryOk : List Char → Bool
  | [] => true
  | c :: _ => c == '/' || c == '@'

/-- Scan to the first `/` and return what follows (none if there is none). -/
def scopeTail : List Char → Option (List Char)
  | [] => none
  | c :: rest => if c == '/' then some rest else scopeTail rest

/-- The scope expression `@[^/]+/`: an `@`, at least one non-slash character,
then a slash; since `[^/]+` cannot contain a slash, the match necessarily
ends at the first slash after the `@`, so the consumed segment is unique. -/
def stripScopeSeg : List Char → Option (List Char)
  | '@' :: c :: rest => if c == '/' then none else scopeTail (c :: rest)
  | _ => none

/-- Match `(?:BASE)(?:/|@|$)` at the start of `t`, where `BASE` is the
escaped literal optionally preceded (when unscoped) by `@[^/]+/`. -/
def matchBase (isScoped : Bool) (pkg t : List Char) : Bool :=
  (match stripCI pkg t with
   | some u => boundaryOk u
   | none => false)
  ||
  (!isScoped &&
   (match stripScopeSeg t with
    | some t2 =>
      match stripCI pkg t2 with
      | some u => boundaryOk u
      | none => false
    | none => false))

/-- After the literal `/node_modules/`: the optional `(?:[.]pnpm/)?` store
marker, then the base-and-boundary expression. -/
def matchAfterNM (isScoped : Bool) (pkg r : List Char) : Bool :=
  matchBase isScoped pkg r
  ||
  (match stripCI ".pnpm/".data r with
   | some r2 => matchBase isScoped pkg r2
   | none => false)

/-- Unanchored search: does `p` hold of some suffix of the list? -/
def anySuffixB (p : List Char → Bool) : List Char → Bool
  | [] => p []
  | c :: cs => p (c :: cs) || anySuffixB p cs

/-- `.test` of the compiled literal regex against `id`. -/
def litTest (pkg : String) (id : String) : Bool :=
  let isScoped : Bool :=
    match pkg.data with
    | '@' :: _ => true
    | _ => false
  anySuffixB
    (fun s =>
      match stripCI "/node_modules/".data s with
      | some r => matchAfterNM isScoped pkg.data r
      | none => false)
    id.data

/-- A configured pattern: a literal package name or an already-compiled
regular expression (kept abstract as its `.test` predicate, exactly how the
source uses it). -/
inductive PackagePattern where
  | lit (s : String)
  | regex (t : String → Bool)

/-- `makeNodeModulesPattern`: a `RegExp` is used as-is; a literal is compiled
to the boundary-safe node_modules predicate. -/
def makeNodeModulesPattern : PackagePattern → (String → Bool)
  | .lit s => litTest s
  | .regex t => t

/-! ## Stable descending sort

`Array.prototype.sort` with comparator `(a, b) => keyB - keyA` is a stable
descending sort (ES2019 guarantees stability); a stable sort is uniquely
determined by the key, so a stable insertion sort is a faithful embedding. -/

/-- Insert `x` behind every element with a strictly larger key. -/
def insDesc {α : Type} (key : α → Nat) (x : α) : List α → List α
  | [] => [x]
  | y :: ys => if key x < key y then y :: insDesc key x ys else x :: y :: ys

/-- Stable sort by descending key. -/
def sortDesc {α : Type} (key : α → Nat) : List α → List α
  | [] => []
  | x :: xs => insDesc key x (sortDesc key xs)

/-! ## Matcher builder (`buildGroupMatchers`) -/

/-- Compiled matcher: name, predicate and priority. -/
structure GroupMatcher where
  name : String
  test : String → Bool
  priority : Nat

inductive Strategy where
  | aggressive
  | balanced
  | conservative
deriving DecidableEq

/-- The options slice `Pick<OPSOptions, 'groups' | 'strategy' | 'minSize'>`
consumed by the builder; `groups` keeps the object's declared entry order. -/
structure BuildOptions where
  groups : Option (List (String × List PackagePattern))
  strategy : Option Strategy
  minSize : Option Nat

/-- `COMMON_LARGE_LIBS`, in source declaration order. -/
def COMMON_LARGE_LIBS : List (String × List String) :=
  [("react", ["react", "react-dom"]),
   ("vue", ["vue", "@vue/"]),
   ("angular", ["@angular/"]),
   ("svelte", ["svelte"]),
   ("redux", ["redux", "react-redux", "@reduxjs/toolkit"]),
   ("mobx", ["mobx", "mobx-react"]),
   ("zustand", ["zustand"]),
   ("pinia", ["pinia"]),
   ("react-router", ["react-router", "react-router-dom"]),
   ("vue-router", ["vue-router"]),
   ("antd", ["antd", "@ant-design/"]),
   ("element-plus", ["element-plus"]),
   ("element-ui", ["element-ui"]),
   ("naive-ui", ["naive-ui"]),
   ("arco-design", ["@arco-design/"]),
   ("material-ui", ["@mui/", "@material-ui/"]),
   ("chakra", ["@chakra-ui/"]),
   ("lodash", ["lodash", "lodash-es"]),
   ("moment", ["moment"]),
   ("dayjs", ["dayjs"]),
   ("axios", ["axios"]),
   ("echarts", ["echarts"]),
   ("d3", ["d3"]),
   ("chart.js", ["chart.js"]),
   ("quill", ["quill"]),
   ("three", ["three"]),
   ("babylon", ["@babylonjs/"])]

/-- `MEDIUM_LIB_GROUPS`, in source declaration order. -/
def MEDIUM_LIB_GROUPS : List (String × List String) :=
  [("utils", ["@vueuse/", "ahooks", "react-use"]),
   ("icons", ["@iconify/", "@ant-design/icons", "@heroicons/", "lucide-react"]),
   ("form", ["react-hook-form", "formik", "async-validator"]),
   ("i18n", ["i18next", "react-i18next", "vue-i18n"])]

/-- Sort key used when ordering one group's patterns: literal length,
regexes count as zero. -/
def patKey : PackagePattern → Nat
  | .lit s => s.length
  | .regex _ => 0

/-- Combine one group's compiled testers into the group predicate
`(id) => testers.some((t) => t(id))`. -/
def anyTester (testers : List (String → Bool)) (id : String) : Bool :=
  testers.any (fun t => t id)

/-- Custom groups (priority 100): one matcher per non-empty entry, patterns
sorted longest-literal-first before compiling. -/
def customMatchers (groups : Option (List (String × List PackagePattern))) :
    List GroupMatcher :=
  match groups with
  | none => []
  | some gs =>
    gs.filterMap (fun g =>
      if g.2.isEmpty then none
      else
        let sorted := sortDesc patKey g.2
        let testers := sorted.map makeNodeModulesPattern
        some { name := g.1, test := anyTester testers, priority := 100 })

/-- Plugin-hint groups: `vue` hint, then `vueuse` hint, in source order. -/
def detectedGroups (pluginHints : List String) : List (String × List String) :=
  (if pluginHints.contains "vue" then [("vue", ["vue", "@vue/"])] else [])
  ++ (if pluginHints.contains "vueuse" then [("vueuse", ["@vueuse/"])] else [])

/-- Hint-detected matchers (priority 90). -/
def hintMatchers (pluginHints : List String) : List GroupMatcher :=
  (detectedGroups pluginHints).map (fun g =>
    let testers := g.2.map (fun p => makeNodeModulesPattern (.lit p))
    { name := g.1, test := anyTester testers, priority := 90 })

/-- Conservative whitelist of very large libraries. -/
def veryLargeLibs : List String :=
  ["react", "vue", "angular", "antd", "element-plus", "echarts", "three"]

/-- Large-preset relevance: some pattern, with slashes removed, is a
substring of some declared dependency name. -/
def largeHasAny (projectDeps : List String) (pats : List String) : Bool :=
  pats.any (fun p =>
    projectDeps.any (fun dep => containsStr (removeAllChar '/' p).data dep.data))

/-- Medium-preset relevance: same test with slashes and asterisks removed. -/
def mediumHasAny (projectDeps : List String) (pats : List String) : Bool :=
  pats.any (fun p =>
    projectDeps.any (fun dep =>
      containsStr (removeAllChar '*' (removeAllChar '/' p)).data dep.data))

/-- Build the matcher for one preset group at the given priority. -/
def presetMatcher (g : String × List String) (prio : Nat) : GroupMatcher :=
  let testers := g.2.map (fun p => makeNodeModulesPattern (.lit p))
  { name := g.1, test := anyTester testers, priority := prio }

/-- Strategy-based matchers, in source accumulation order. -/
def strategyMatchers (strategy : Strategy) (projectDeps : List String) :
    List GroupMatcher :=
  match strategy with
  | .aggressive =>
    projectDeps.filterMap (fun dep =>
      if strStartsWith dep "@types/" then none
      else some { name := dep, test := makeNodeModulesPattern (.lit dep),
                  priority := 50 })
  | .balanced =>
    (COMMON_LARGE_LIBS.filterMap (fun g =>
      if largeHasAny projectDeps g.2 then some (presetMatcher g 80) else none))
    ++ (MEDIUM_LIB_GROUPS.filterMap (fun g =>
      if mediumHasAny projectDeps g.2 then some (presetMatcher g 70) else none))
  | .conservative =>
    COMMON_LARGE_LIBS.filterMap (fun g =>
      if veryLargeLibs.contains g.1 && largeHasAny projectDeps g.2 then
        some (presetMatcher g 80)
      else none)

/-- The accumulated matcher list before the final sort, in push order:
custom groups, then hint groups, then strategy groups. -/
def rawMatchers (options : BuildOptions) (projectDeps pluginHints : List String) :
    List GroupMatcher :=
  customMatchers options.groups
  ++ hintMatchers pluginHints
  ++ strategyMatchers (options.strategy.getD .balanced) projectDeps

/-- `buildGroupMatchers`: accumulate, then stable-sort by descending priority. -/
def buildGroupMatchers (options : BuildOptions)
    (projectDeps pluginHints : List String) : List GroupMatcher :=
  sortDesc (fun m => m.priority) (rawMatchers options projectDeps pluginHints)

/-! ## Resolver (`manualChunks`) -/

/-- `manualChunks`: normalize, gate on a case-sensitive `/node_modules/`
segment, walk the sorted matcher list, fall back to `vendor`. -/
def manualChunks (groupsRef : List GroupMatcher) (id : String) : Option String :=
  let nid := normalizeId id
  if containsStr "/node_modules/".data nid.data then
    match groupsRef.find? (fun g => g.test nid) with
    | some g => some g.name
    | none => some "vendor"
  else none

end VPO

namespace VPO

/-! ## Properties of the stable descending sort -/

theorem mem_insDesc {α : Type} (key : α → Nat) (x a : α) (l : List α) :
    a ∈ insDesc key x l ↔ a = x ∨ a ∈ l := by
  induction l with
  | nil => simp [insDesc]
  | cons y ys ih =>
    by_cases hlt : key x < key y
    · simp only [insDesc, hlt, if_true, List.mem_cons, ih]
      tauto
    · simp only [insDesc, hlt, if_false, List.mem_cons]

theorem pairwise_insDesc {α : Type} (key : α → Nat) (x : α) (l : List α)
    (h : l.Pairwise (fun a b => key b ≤ key a)) :
    (insDesc key x l).Pairwise (fun a b => key b ≤ key a) := by
  induction l with
  | nil => simp [insDesc]
  | cons y ys ih =>
    rw [List.pairwise_cons] at h
    by_cases hlt : key x < key y
    · rw [insDesc]
      simp only [hlt, if_true]
      rw [List.pairwise_cons]
      constructor
      · intro b hb
        rcases (mem_insDesc key x b ys).mp hb with hbx | hby
        · subst hbx; omega
        · exact h.1 b hby
      · exact ih h.2
    · rw [insDesc]
      simp only [hlt, if_false]
      rw [List.pairwise_cons]
      constructor
      · intro b hb
        rcases List.mem_cons.mp hb with hby | hbys
        · subst hby; omega
        · have := h.1 b hbys
          omega
      · rw [List.pairwise_cons]
        exact h

theorem pairwise_sortDesc {α : Type} (key : α → Nat) (l : List α) :
    (sortDesc key l).Pairwise (fun a b => key b ≤ key a) := by
  induction l with
  | nil => simp [sortDesc]
  | cons x xs ih => exact pairwise_insDesc key x _ ih

/-- Stability of the insertion step: the priority-`p` slice is unchanged
except that `x`, when it has priority `p`, lands in front (every element it
was inserted behind has a strictly larger key). -/
theorem filter_insDesc {α : Type} (key : α → Nat) (p : Nat) (x : α) (l : List α) :
    (insDesc key x l).filter (fun y => key y == p) =
      if key x == p then x :: l.filter (fun y => key y == p)
      else l.filter (fun y => key y == p) := by
  induction l with
  | nil => rw [insDesc]; simp [List.filter_cons]
  | cons y ys ih =>
    by_cases hlt : key x < key y
    · rw [insDesc]
      simp only [hlt, if_true]
      rw [List.filter_cons, List.filter_cons, ih]
      by_cases hx : key x = p
      · by_cases hy : key y = p
        · omega
        · simp [hx, hy]
      · by_cases hy : key y = p
        · simp [hx, hy]
        · simp [hx, hy]
    · rw [insDesc]
      simp only [hlt, if_false]
      rw [List.filter_cons]

/-- Stability of the sort: each equal-priority slice keeps insertion order. -/
theorem filter_sortDesc {α : Type} (key : α → Nat) (p : Nat) (l : List α) :
    (sortDesc key l).filter (fun y => key y == p) = l.filter (fun y => key y == p) := by
  induction l with
  | nil => rfl
  | cons x xs ih =>
    rw [sortDesc, filter_insDesc, List.filter_cons, ih]

/-! ## Claim theorems -/

/-- Claim C1: the spec (and the README, which documents the Vue preset as
covering `@vue/*`) says a literal pattern `@vue/` matches both the plain
scoped path and the pnpm-store path.  The code disagrees: for a literal
ending in `/`, the compiled regex demands a further boundary character
(`/`, `@`, or end of string) after the slash that the literal has already
consumed, so the predicate returns `false` on both paths — `@vue/`-style
preset patterns can never match a real module path. -/
theorem scoped_slash_literal_rejects_vue_paths :
    makeNodeModulesPattern (.lit "@vue/")
      "/proj/node_modules/@vue/reactivity/dist/index.js" = false ∧
    makeNodeModulesPattern (.lit "@vue/")
      "/proj/node_modules/.pnpm/@vue+reactivity@3.2.0/node_modules/@vue/reactivity/dist/index.js"
      = false :=
  ⟨by decide, by decide⟩

/-- Claim C2: with a single custom group `react: ['react', 'react-dom']`,
`resolve` classifies the `react-dom` path into the group, and the trailing
boundary prevents the `react` literal from claiming `react-helmet`. -/
theorem custom_react_group_boundary :
    manualChunks
      (buildGroupMatchers
        ⟨some [("react", [.lit "react", .lit "react-dom"])], some .balanced, some 50⟩ [] [])
      "/proj/node_modules/react-dom/index.js" = some "react" ∧
    manualChunks
      (buildGroupMatchers
        ⟨some [("react", [.lit "react", .lit "react-dom"])], some .balanced, some 50⟩ [] [])
      "/proj/node_modules/react-helmet/index.js" ≠ some "react" :=
  ⟨by decide, by decide⟩

/-- The matcher list of the C3 scenario reduces to the custom group at
priority 100 followed by the built-in `vue` group at priority 80. -/
theorem c3_matcher_list : buildGroupMatchers
    ⟨some [("mylib", [.lit "vue"])], some .balanced, some 50⟩ ["vue"] [] =
    [⟨"mylib", anyTester [litTest "vue"], 100⟩,
     ⟨"vue", anyTester [litTest "vue", litTest "@vue/"], 80⟩] := by rfl

/-- Claim C3: with custom group `{ mylib: ['vue'] }`, strategy `balanced`
and `vue` a declared dependency, the builder produces the custom group at
priority 100 ahead of the built-in `vue` group at priority 80, and every
module id that passes the `node_modules` gate and matches the `vue` literal
resolves to `mylib`, never to the built-in group name. -/
theorem custom_group_overrides_builtin :
    (buildGroupMatchers
        ⟨some [("mylib", [.lit "vue"])], some .balanced, some 50⟩ ["vue"] []).map
      (fun m => (m.name, m.priority)) = [("mylib", 100), ("vue", 80)] ∧
    ∀ id : String, litTest "vue" (normalizeId id) = true →
      containsStr "/node_modules/".data (normalizeId id).data = true →
      manualChunks
        (buildGroupMatchers
          ⟨some [("mylib", [.lit "vue"])], some .balanced, some 50⟩ ["vue"] [])
        id = some "mylib" := by
  constructor
  · decide
  · intro id hvue hnm
    rw [c3_matcher_list]
    unfold manualChunks
    simp only [hnm, if_true]
    rw [List.find?]
    simp [anyTester, hvue]

theorem custom_group_overrides_builtin_witness :
    litTest "vue" (normalizeId "/p/node_modules/vue/index.js") = true ∧
    containsStr "/node_modules/".data (normalizeId "/p/node_modules/vue/index.js").data = true ∧
    manualChunks
      (buildGroupMatchers
        ⟨some [("mylib", [.lit "vue"])], some .balanced, some 50⟩ ["vue"] [])
      "/p/node_modules/vue/index.js" = some "mylib" :=
  ⟨by decide, by decide,
   custom_group_overrides_builtin.2 "/p/node_modules/vue/index.js" (by decide) (by decide)⟩

/-- Claim C4: whenever the normalized id has no (case-sensitive)
`/node_modules/` segment, the resolver returns no classification, whatever
the options, dependency set and hint set were. -/
theorem no_node_modules_no_classification (o : BuildOptions) (d h : List String)
    (id : String)
    (hno : containsStr "/node_modules/".data (normalizeId id).data = false) :
    manualChunks (buildGroupMatchers o d h) id = none := by
  unfold manualChunks
  simp [hno]

theorem no_node_modules_no_classification_witness :
    containsStr "/node_modules/".data (normalizeId "/src/app.ts").data = false ∧
    manualChunks (buildGroupMatchers ⟨none, none, none⟩ [] []) "/src/app.ts" = none :=
  ⟨by decide,
   no_node_modules_no_classification ⟨none, none, none⟩ [] [] "/src/app.ts" (by decide)⟩

/-- Claim C5: strategy `conservative` with dependencies `vue`, `echarts`,
`axios` builds exactly the `vue` and `echarts` matchers at priority 80 (no
`axios` matcher), and the `axios` path falls back to `vendor`. -/
theorem conservative_scenario :
    (buildGroupMatchers ⟨none, some .conservative, some 50⟩
        ["vue", "echarts", "axios"] []).map (fun m => (m.name, m.priority)) =
      [("vue", 80), ("echarts", 80)] ∧
    manualChunks
      (buildGroupMatchers ⟨none, some .conservative, some 50⟩ ["vue", "echarts", "axios"] [])
      "/p/node_modules/axios/index.js" = some "vendor" :=
  ⟨by decide, by decide⟩

/-- Claim C6: strategy `aggressive` over dependencies `a`, `b`, `@types/a`
synthesizes exactly the matchers `a` and `b` at priority 50; the
`@types/`-prefixed dependency is skipped. -/
theorem aggressive_excludes_types :
    (buildGroupMatchers ⟨none, some .aggressive, some 50⟩ ["a", "b", "@types/a"] []).map
      (fun m => (m.name, m.priority)) = [("a", 50), ("b", 50)] := by
  decide

/-- Claim C7: `minSize` is dead configuration — two option records differing
only in `minSize` build definitionally identical matcher lists, so the
resolver agrees on every input. -/
theorem minSize_has_no_effect (g : Option (List (String × List PackagePattern)))
    (s : Option Strategy) (m1 m2 : Option Nat) (d h : List String) :
    buildGroupMatchers ⟨g, s, m1⟩ d h = buildGroupMatchers ⟨g, s, m2⟩ d h ∧
    ∀ id : String, manualChunks (buildGroupMatchers ⟨g, s, m1⟩ d h) id =
      manualChunks (buildGroupMatchers ⟨g, s, m2⟩ d h) id :=
  ⟨rfl, fun _ => rfl⟩

/-- Claim C8: the balanced preset-relevance check is raw substring
containment, so a sole dependency `my-react-wrapper` (which is neither
`react` nor `react-dom`) still pulls in the built-in `react` preset matcher
at priority 80. -/
theorem balanced_substring_overmatch :
    (buildGroupMatchers ⟨none, some .balanced, some 50⟩ ["my-react-wrapper"] []).map
      (fun m => (m.name, m.priority)) = [("react", 80)] := by
  decide

/-- Claim C9: for every configuration, dependency set and hint set, the
built matcher list is sorted by non-increasing priority, and within each
priority tier the matchers appear exactly in the order in which the builder
appended them (custom, then hint, then strategy groups). -/
theorem matcher_list_sorted_and_stable (o : BuildOptions) (d h : List String) :
    (buildGroupMatchers o d h).Pairwise (fun a b => b.priority ≤ a.priority) ∧
    ∀ p : Nat, (buildGroupMatchers o d h).filter (fun m => m.priority == p) =
      (rawMatchers o d h).filter (fun m => m.priority == p) :=
  ⟨pairwise_sortDesc _ _, fun p => filter_sortDesc _ p _⟩

/-- Claim C10: `node_modules` only counts when delimited by slashes on both
sides: an id beginning directly with `node_modules/` fails the resolver's
gate and is never classified, whatever the matcher list. -/
theorem unanchored_node_modules_not_classified (gs : List GroupMatcher) :
    manualChunks gs "node_modules/react/index.js" = none := by
  have hno : containsStr "/node_modules/".data
      (normalizeId "node_modules/react/index.js").data = false := by decide
  unfold manualChunks
  simp [hno]

end VPO
